import Mathlib

/-!
# Verification of the neon-evm tracer-api against its specification

This file contains a shallow embedding, in Lean 4, of the parts of the
`tracer-api` crate (and of the `cli` emulate command) of the neon-evm
repository that are relevant to the spec claims under study:

* the per-instruction replay loop of `replay_transaction` and the wrapper
  `command_replay_transaction` (`src/evm_loader/tracer-api/src/neon/mod.rs`);
* the `Iterator` implementation of `ProcessedMessage`
  (`src/evm_loader/tracer-api/src/replay/processor.rs`);
* the tail of `command_trace_call` (step budget, state-diff dispatch on the
  exit reason, `used_gas`) and the `used_gas` computation of the CLI
  `emulate` command (`src/evm_loader/cli/src/commands/emulate.rs`);
* the lazy hydration of `EmulatorAccountStorage`
  (`src/evm_loader/tracer-api/src/neon/account_storage.rs`) and its
  `code_hash` query (together with an executable Keccak-256);
* the balance-delta collation and application of
  `src/evm_loader/tracer-api/src/neon/diff.rs`;
* the `BlockNumber` string deserializer of
  `src/evm_loader/tracer-api/src/v1/geth/types/trace.rs`.

Machine integers are modelled as `Nat` (with explicit bounds where overflow
behaviour matters); fallible Rust code is modelled with `Except`, and code
that can additionally panic (`unwrap`, `unreachable!`, unchecked `U256`
subtraction) with a dedicated `RunResult` type that has a `panic`
constructor.  External data (Solana pubkeys, EVM addresses, opaque error
payloads, decoded transactions) is represented by `Nat` parameters: the
embedded definitions only inspect what the source code inspects.
-/

deriving instance DecidableEq for Except

namespace NeonEvm

/-! ## Common model types -/

/-- Model of a 32-byte Solana `Pubkey`; only identity is relevant. -/
abbrev Pubkey := Nat

/-- Model of a 20-byte EVM address (`H160`); only identity is relevant. -/
abbrev H160 := Nat

/-- `evm::ExitReason`.  The payload kinds (`ExitSucceed`, `ExitError`, …) are
opaque to the embedded code, so they are modelled as `Nat`. -/
inductive ExitReason where
  | succeed (k : Nat)
  | error (k : Nat)
  | revert (k : Nat)
  | fatal (k : Nat)
  | stepLimitReached
  deriving DecidableEq, Repr

/-- `ExitReason::is_succeed`. -/
def ExitReason.is_succeed : ExitReason → Bool
  | .succeed _ => true
  | _ => false

/-- Result of running a piece of Rust code that may return a value, return an
error, or panic (`unwrap` on `None`/`Err`, `unreachable!`, arithmetic
overflow).  A Rust function that panics returns nothing to its caller, which
`RunResult.panic` records. -/
inductive RunResult (ε τ : Type) where
  | ok (value : τ)
  | err (e : ε)
  | panic (msg : String)
  deriving DecidableEq, Repr

/-! ## The replay loop of `replay_transaction` (neon/mod.rs, lines 167-292)

`replay_transaction` walks the host transaction's instructions in order.  For
each instruction it dispatches on the program id:

* EVM-loader instructions are decoded (`EvmInstruction::parse`, the rlp/holder
  decode) and, for the four handled variants, traced via `command_trace_call`;
  the resulting `TracedCall` is stored in the local `traced_call` option
  (overwriting any previous one) and the loop continues.  Unhandled variants
  are skipped with a warning.  Decode failures abort the whole function via
  `?`.
* any other instruction is forwarded to
  `ProcessedMessage::process_instruction(i)?` — note the `?`: a failing host
  instruction aborts `replay_transaction` with that `InstructionError`.

Decoding and tracing happen in external crates, so each instruction is
embedded as the outcome it produces at its dispatch point. -/

/-- One host-level instruction of the message, as seen by the dispatch loop of
`replay_transaction`.  `τ` is the payload type produced by a successful
`command_trace_call` (the `TracedCall`).  Error payloads are opaque (`Nat`). -/
inductive HostInstr (τ : Type) where
  /-- EVM-loader instruction with an `EvmInstruction` variant the loop does
  not handle: logged and skipped (`_ => { warn!(…); continue }`). -/
  | evmUnhandled
  /-- EVM-loader instruction whose tag parse / rlp decode / holder read fails:
  the error propagates out of `replay_transaction` through `?`. -/
  | evmDecodeErr (e : Nat)
  /-- EVM-loader instruction of a handled variant: `command_trace_call` is
  invoked and yields `r` (`Ok(traced)` or `Err(e)`, the latter propagating
  through `?`). -/
  | evmCall (r : Except Nat τ)
  /-- Non-EVM instruction: `processed.process_instruction(i)` yields `r`; an
  `Err` propagates out of `replay_transaction` through `?`. -/
  | other (r : Except Nat Unit)
  deriving DecidableEq, Repr

/-- The typed error union that `replay_transaction` can surface (all lower
errors are wrapped into `anyhow::Error`; we keep them apart by origin). -/
inductive ReplayError where
  /-- an `InstructionError` from a non-EVM host instruction -/
  | instruction (e : Nat)
  /-- an `EvmInstruction`/rlp/holder decode failure -/
  | decode (e : Nat)
  /-- an error returned by `command_trace_call` -/
  | traceCall (e : Nat)
  deriving DecidableEq, Repr

/-- An instruction whose processing aborts `replay_transaction` with an error
(through one of the `?` operators inside the loop). -/
def HostInstr.failing {τ : Type} : HostInstr τ → Bool
  | .evmDecodeErr _ => true
  | .evmCall (.error _) => true
  | .other (.error _) => true
  | _ => false

/-- The instruction loop of `replay_transaction`, with `acc` playing the role
of the mutable `traced_call : Option<TracedCall>` local. -/
def replayLoop {τ : Type} (acc : Option τ) :
    List (HostInstr τ) → Except ReplayError (Option τ)
  | [] => .ok acc
  | .evmUnhandled :: rest => replayLoop acc rest
  | .evmDecodeErr e :: _ => .error (.decode e)
  | .evmCall (.error e) :: _ => .error (.traceCall e)
  | .evmCall (.ok traced) :: rest => replayLoop (some traced) rest
  | .other (.ok ()) :: rest => replayLoop acc rest
  | .other (.error e) :: _ => .error (.instruction e)

/-- `replay_transaction` (neon/mod.rs, lines 167-292), restricted to its
instruction loop and return value: account fetching and snapshot set-up are
side conditions that do not affect which `TracedCall` (if any) is returned.
Returns `Ok(traced_call)` where `traced_call` is the value left in the local
option after the loop, or the first error raised by an instruction. -/
def replay_transaction {τ : Type} (instrs : List (HostInstr τ)) :
    Except ReplayError (Option τ) :=
  replayLoop none instrs

/-- One fold step of the `traced_call` accumulator: an EVM-loader
instruction that produced a trace overwrites it, everything else leaves it
unchanged. -/
def traceStep {τ : Type} (acc : Option τ) : HostInstr τ → Option τ
  | .evmCall (.ok traced) => some traced
  | _ => acc

/-- The last `TracedCall` produced by an EVM-loader instruction of the list
(`none` if no instruction produces one). -/
def lastTrace {τ : Type} (instrs : List (HostInstr τ)) : Option τ :=
  instrs.foldl traceStep none

/-- The first `TracedCall` produced by an EVM-loader instruction of the list
(`none` if no instruction produces one); this is what the spec sentence for
C2 says `replay_transaction` returns. -/
def firstTrace {τ : Type} (instrs : List (HostInstr τ)) : Option τ :=
  instrs.foldr
    (fun i acc =>
      match i with
      | .evmCall (.ok traced) => some traced
      | _ => acc)
    none

/-- `command_replay_transaction` (neon/mod.rs, lines 294-306).  The store
lookup result is the `lookup` argument; when it is `some`, the function
returns `replay_transaction(…)?.unwrap()` — an `Ok(None)` from
`replay_transaction` hits the unconditional `unwrap` and panics. -/
def command_replay_transaction {τ : Type}
    (lookup : Option (List (HostInstr τ))) : RunResult ReplayError τ :=
  match lookup with
  | none => .err (.traceCall 0)  -- "transaction {} not found" (anyhow error)
  | some instrs =>
    match replay_transaction instrs with
    | .error e => .err e
    | .ok none => .panic "called Option::unwrap on a None value"
    | .ok (some traced) => .ok traced

/-! ## The `Iterator` implementation of `ProcessedMessage`
(replay/processor.rs, lines 306-323)

`next` checks `!exited && current_idx < len`, advances `current_idx`, runs the
instruction and sets `exited` on an `Err` result.  The outcome of
`process_instruction(idx)` for each index is embedded as a list. -/

/-- The iteration state of `ProcessedMessage`: the per-index outcome of
`process_instruction`, the cursor, and the `exited` flag. -/
structure PMState where
  results : List (Except Nat Unit)
  current_idx : Nat
  exited : Bool
  deriving DecidableEq, Repr

/-- `<ProcessedMessage as Iterator>::next` (replay/processor.rs, lines
306-323): returns the emitted item and the successor state. -/
def pmNext (s : PMState) : Option (Except Nat Unit) × PMState :=
  if s.exited then (none, s)
  else
    match s.results.get? s.current_idx with
    | none => (none, s)
    | some result =>
      (some result,
        { s with
          current_idx := s.current_idx + 1,
          exited := !result.isOk })

/-! ## `command_trace_call` (neon/mod.rs, lines 336-480)

The function builds the account storage, the `Machine` and the tracer, then
runs, inside `tracer.using`, either `call_begin` or `create_begin` followed by
`executor.execute_n_steps(100_000)`:

* `Ok(())` from `execute_n_steps` means the interpreter performed the whole
  100,000-step budget without exiting; the closure turns it into an
  `Err(anyhow!("bad account kind: "))` which propagates out through `?`;
* `Err(result)` means the interpreter exited; `result` destructures into
  `(_, exit_reason)`.

Afterwards `used_gas = executor.used_gas().as_u64()` (no adjustment), and the
`state_diff` field is `Some(prepare_state_diff(…))` for `Succeed`, `None` for
`Error | Revert | Fatal`, and `unreachable!()` (a panic) for
`StepLimitReached`.  The machine itself lives in the external `evm_loader`
crate, so its behaviour enters the model as the `steps` argument. -/

/-- Outcome of `executor.execute_n_steps(100_000)`:
`ranOutOfSteps` is the `Ok(())` case (budget exhausted, machine still
running), `exited` is the `Err((result_bytes, exit_reason))` case. -/
inductive StepsOutcome where
  | ranOutOfSteps
  | exited (result : List Nat) (reason : ExitReason)
  deriving DecidableEq, Repr

/-- The data harvested from `tracer.into_traces()`; the trace payloads are
opaque to the control flow around them. -/
structure TracerOut where
  vm_trace : Option Nat
  traces : List Nat
  full_trace_data : List Nat
  js_trace : Option Nat
  result : List Nat
  deriving DecidableEq, Repr

/-- `TracedCall` (neon/mod.rs, lines 104-114); the trace payloads and the
state diff are opaque (`prepare_state_diff`'s value enters as a `Nat` tag). -/
structure TracedCall where
  vm_trace : Option Nat
  state_diff : Option Nat
  traces : List Nat
  full_trace_data : List Nat
  js_trace : Option Nat
  result : List Nat
  used_gas : Nat
  exit_reason : ExitReason
  deriving DecidableEq, Repr

/-- `command_trace_call` (neon/mod.rs, lines 336-480) from the point where the
machine has been set up.  `setup` collects the fallible set-up steps
(`Machine::new?`, `call_begin?`/`create_begin?`), `steps` is the outcome of
`execute_n_steps(100_000)`, `tout` is `tracer.into_traces()`, `usedGas` is
`executor.used_gas().as_u64()` and `diff` is the value
`prepare_state_diff(&storage, applies, transfers)` would produce. -/
def command_trace_call (setup : Except Nat Unit) (steps : StepsOutcome)
    (tout : TracerOut) (usedGas : Nat) (diff : Nat) :
    RunResult Nat TracedCall :=
  match setup with
  | .error e => .err e
  | .ok () =>
    match steps with
    | .ranOutOfSteps => .err 0  -- anyhow!("bad account kind: "), "too many steps"
    | .exited _result exit_reason =>
      match exit_reason with
      | .stepLimitReached => .panic "internal error: entered unreachable code"
      | reason =>
        let state_diff := if reason.is_succeed then some diff else none
        .ok {
          vm_trace := tout.vm_trace,
          state_diff := state_diff,
          traces := tout.traces,
          full_trace_data := tout.full_trace_data,
          js_trace := tout.js_trace,
          result := tout.result,
          used_gas := usedGas,
          exit_reason := reason }

/-- The `used_gas` value printed by the CLI `emulate` command
(cli/src/commands/emulate.rs, lines 96-107, 159): the inner
`used_gas = gasometer.used_gas() + 1` (the compensation for neon-evm issue
144) is folded into `needed_gas = used_gas + (refunded_gas > 0 ?
refunded_gas : 0)`, and `needed_gas` is the value bound to `used_gas` by the
outer destructuring and reported in the JSON output. -/
def cliEmulateReportedGas (used : Nat) (refunded : Int) : Nat :=
  let used_gas := used + 1
  used_gas + (if 0 < refunded then refunded.toNat else 0)

/-! ## `BlockNumber` deserialization (v1/geth/types/trace.rs, lines 48-65)

`string::deserialize` reads a JSON string; if it starts with `"0x"` it parses
the rest with `u64::from_str_radix(_, 16)`, otherwise it fails with
`"Invalid block number: missing 0x prefix"`.  There is no decimal branch and
no `"latest"` branch in this deserializer. -/

/-- Value of a hexadecimal digit, as accepted by Rust's
`u64::from_str_radix(_, 16)`. -/
def hexDigit? (c : Char) : Option Nat :=
  if '0' ≤ c ∧ c ≤ '9' then some (c.toNat - '0'.toNat)
  else if 'a' ≤ c ∧ c ≤ 'f' then some (c.toNat - 'a'.toNat + 10)
  else if 'A' ≤ c ∧ c ≤ 'F' then some (c.toNat - 'A'.toNat + 10)
  else none

/-- Digit-accumulation loop of `u64::from_str_radix(_, 16)`: fails on a
non-digit and on overflow past `u64::MAX`. -/
def fromStrRadix16Digits (acc : Nat) : List Char → Except String Nat
  | [] => .ok acc
  | c :: rest =>
    match hexDigit? c with
    | none => .error "invalid digit found in string"
    | some d =>
      let acc' := acc * 16 + d
      if acc' < 2 ^ 64 then fromStrRadix16Digits acc' rest
      else .error "number too large to fit in target type"

/-- `u64::from_str_radix(s, 16)`: an optional leading `+`, then at least one
hexadecimal digit, no overflow. -/
def fromStrRadix16 (s : List Char) : Except String Nat :=
  let digits := match s with
    | '+' :: rest => rest
    | other => other
  match digits with
  | [] => .error "cannot parse integer from empty string"
  | _ => fromStrRadix16Digits 0 digits

/-- `string::deserialize` for `BlockNumber`
(v1/geth/types/trace.rs, lines 48-65), applied to the decoded JSON string
(seen as its character list; `value.starts_with("0x")` is the check that the
first two characters are `0` then `x`). -/
def blockNumberDeserialize (value : List Char) : Except String Nat :=
  if value.take 2 = ['0', 'x'] then
    match fromStrRadix16 (value.drop 2) with
    | .ok number => .ok number
    | .error e => .error ("Invalid block number: " ++ e)
  else
    .error "Invalid block number: missing 0x prefix"

/-! ## Balance-delta collation and application (neon/diff.rs)

`collect_balance_changes` folds the transfer list into a map
`HashMap<H160, (Sign, U256)>`; `apply_balance_update` implements exact signed
arithmetic on the `(Sign, U256)` pairs (same sign: add; opposite sign:
subtract, swapping the sign when the subtrahend exceeds the accumulated
magnitude).  The map is modelled as an association list inserted in first-use
order; `U256` magnitudes are modelled as `Nat` (the guarded subtractions never
underflow; a `U256` addition that overflows panics in the source instead of
producing a wrong map entry).

`modify` turns a collated `(Sign, U256)` delta into the new balance with
`old_balance + value` / `old_balance - value`; the `Sign::Neg` case is an
unchecked `U256` subtraction that panics when `value > old_balance`. -/

/-- `Sign` (neon/diff.rs, lines 14-18). -/
inductive Sign where
  | pos
  | neg
  deriving DecidableEq, Repr

/-- `Sign::swap` (neon/diff.rs, lines 20-27). -/
def Sign.swap : Sign → Sign
  | .pos => .neg
  | .neg => .pos

/-- `evm::Transfer`, restricted to the fields `collect_balance_changes`
reads. -/
structure Transfer where
  source : H160
  target : H160
  value : Nat
  deriving DecidableEq, Repr

/-- `apply_balance_update` (neon/diff.rs, lines 99-108). -/
def apply_balance_update (current : Sign × Nat) (sign : Sign) (value : Nat) :
    Sign × Nat :=
  match current.1, sign with
  | .neg, .neg | .pos, .pos => (current.1, current.2 + value)
  | _, _ =>
    if current.2 < value then (current.1.swap, value - current.2)
    else (current.1, current.2 - value)

/-- `entry(addr).or_insert((Sign::Pos, U256::zero()))` followed by an in-place
update `f` — the association-list form of the `HashMap` entry API. -/
def upsertBalance (m : List (H160 × (Sign × Nat))) (addr : H160)
    (f : Sign × Nat → Sign × Nat) : List (H160 × (Sign × Nat)) :=
  match m with
  | [] => [(addr, f (.pos, 0))]
  | (a, x) :: rest =>
    if addr = a then (a, f x) :: rest
    else (a, x) :: upsertBalance rest addr f

/-- `collect_balance_changes` (neon/diff.rs, lines 95-124): each transfer
applies its value with `Sign::Neg` at the source and `Sign::Pos` at the
target. -/
def collect_balance_changes (transfers : List Transfer) :
    List (H160 × (Sign × Nat)) :=
  transfers.foldl
    (fun m transfer =>
      let m := upsertBalance m transfer.source
        (fun cur => apply_balance_update cur .neg transfer.value)
      upsertBalance m transfer.target
        (fun cur => apply_balance_update cur .pos transfer.value))
    []

/-- The signed integer denoted by a `(Sign, U256)` pair. -/
def signedVal : Sign × Nat → Int
  | (.pos, v) => (v : Int)
  | (.neg, v) => -(v : Int)

/-- Net signed sum of a collated balance map. -/
def sumBalances (m : List (H160 × (Sign × Nat))) : Int :=
  (m.map (fun e => signedVal e.2)).sum

/-- The balance computation inside `modify` (neon/diff.rs, lines 165-172):
`old_balance` is the balance of the old pod (zero when absent), and the
collated delta is applied by `old_balance + value` / `old_balance - value`.
The `Sign::Neg` arm performs an unchecked `U256` subtraction which panics
(`RunResult.panic` is modelled by `none`) when `value` exceeds
`old_balance`. -/
def modifyBalance (old_balance : Nat) (balance : Option (Sign × Nat)) :
    Option Nat :=
  match balance with
  | none => some old_balance
  | some (.pos, value) => some (old_balance + value)
  | some (.neg, value) =>
    if old_balance < value then none else some (old_balance - value)

/-! ## Lazy hydration in `EmulatorAccountStorage` (neon/account_storage.rs)

`create_acc_if_not_exists` (lines 91-150) hydrates one EVM address:
if the address is already in `ethereum_accounts` it returns `true` at once;
otherwise it derives the host key, fetches the host account from the
provider, parses it as an `EthereumAccount`, fetches the referenced code
account if there is one, and only on full success inserts a `SolanaAccount`
into the map.  Every early-out (`provider error`, missing account, parse
failure, missing code account) returns `false` **without inserting
anything**.

To observe the number of provider fetches, the embedding threads a state that
records every `get_account_at_slot` call issued.  The provider, the key
derivation (`Pubkey::find_program_address`) and the two account parsers
(`EthereumAccount::from_account`, `EthereumContract::from_account`, which
live in the external `evm_loader` crate) are environment parameters: the
embedded code only branches on their results, exactly as the source does. -/

/-- A host-level Solana `Account`, with the fields the tracer reads. -/
structure Account where
  lamports : Nat
  data : List Nat
  owner : Pubkey
  executable : Bool
  rent_epoch : Nat
  deriving DecidableEq, Repr

/-- `SolanaAccount` (neon/account_storage.rs, lines 37-41): the hydrated
entry stored per EVM address. -/
structure SolanaAccount where
  account : Account
  code_account : Option Account
  key : Pubkey
  deriving DecidableEq, Repr

/-- The request-scoped environment of `EmulatorAccountStorage`: the provider
fixed at `block_number`, the host-key derivation for EVM addresses, the
`EthereumAccount` parser (returning the optional code-account key), and the
`EthereumContract` parser (returning the contract code bytes).  The last
three live in external crates (`solana_sdk`, `evm_loader`); the embedded
code only branches on their results. -/
structure HydrationEnv where
  get_account_at_slot : Pubkey → Except Unit (Option Account)
  find_program_address : H160 → Pubkey
  ethereumAccountCodeKey : Account → Except Unit (Option Pubkey)
  ethereumContractCode : Account → List Nat

/-- The mutable interior of `EmulatorAccountStorage` relevant to EVM-address
hydration, plus a log of the provider fetches issued (one entry per
`get_account_at_slot` call, recording the requested key). -/
structure EmulatorState where
  ethereum_accounts : List (H160 × SolanaAccount)
  fetch_log : List Pubkey
  deriving Repr

/-- The state at storage construction: empty map, no fetches issued. -/
def EmulatorState.initial : EmulatorState :=
  { ethereum_accounts := [], fetch_log := [] }

/-- Fetches issued for the host key derived from `address` (the claim's
"host-account fetch … for that address" counts requests for the derived
main key). -/
def EmulatorState.fetchesFor (s : EmulatorState) (env : HydrationEnv)
    (address : H160) : Nat :=
  (s.fetch_log.filter (fun k => k = env.find_program_address address)).length

/-- `create_acc_if_not_exists` (neon/account_storage.rs, lines 91-150),
returning the `bool` result and the updated storage state.  The fetch log
grows by one entry per provider call. -/
def create_acc_if_not_exists (env : HydrationEnv) (address : H160)
    (s : EmulatorState) : Bool × EmulatorState :=
  if ((s.ethereum_accounts.filter (fun e => e.1 = address)).length ≠ 0) then
    (true, s)
  else
    let key := env.find_program_address address
    let s := { s with fetch_log := s.fetch_log ++ [key] }
    match env.get_account_at_slot key with
    | .error _ => (false, s)  -- warn!("error to get_account_at_slot")
    | .ok none => (false, s)  -- warn!("account not found")
    | .ok (some solana) =>
      match env.ethereumAccountCodeKey solana with
      | .error _ => (false, s)  -- warn!("EthereumAccount::from_account() error")
      | .ok code_key_opt =>
        match code_key_opt with
        | some code_key =>
          let s := { s with fetch_log := s.fetch_log ++ [code_key] }
          match env.get_account_at_slot code_key with
          | .error _ => (false, s)
          | .ok none => (false, s)
          | .ok (some code_acc) =>
            (true,
              { s with ethereum_accounts := s.ethereum_accounts ++
                  [(address, { account := solana,
                               code_account := some code_acc, key := key })] })
        | none =>
          (true,
            { s with ethereum_accounts := s.ethereum_accounts ++
                [(address, { account := solana,
                             code_account := none, key := key })] })

/-- Map lookup over the hydrated entries (the `HashMap::get_mut` of
`ethereum_contract_map_or`). -/
def EmulatorState.lookup (s : EmulatorState) (address : H160) :
    Option SolanaAccount :=
  (s.ethereum_accounts.filter (fun e => e.1 = address)).head?.map (·.2)

/-! ## Keccak-256

`code_hash` applies `evm_loader::utils::keccak256_h256` (the standard
Ethereum Keccak-256, as also provided by `solana_program::keccak`) to the
contract code.  An executable Keccak-256 over byte lists, with 64-bit lanes
as `Nat` masked to `2^64`. -/

/-- 64-bit left rotation. -/
def rotl64 (x n : Nat) : Nat :=
  ((x <<< n) ||| (x >>> (64 - n))) % 2 ^ 64

/-- The degree-8 LFSR of the Keccak round-constant schedule:
`R := (R << 1) xor ((R >> 7) * 0x71)` over one byte. -/
def keccakLfsrStep (r : Nat) : Nat :=
  let doubled := r * 2
  if doubled < 256 then doubled else (doubled ^^^ 0x71) % 256

/-- Bit `rc(t)` of the Keccak round-constant schedule. -/
def keccakRcBit (t : Nat) : Nat :=
  keccakLfsrStep^[t] 1 % 2

/-- The `i`-th Keccak-f[1600] round constant: bit `rc(7*i + j)` is placed at
position `2 ^ j - 1` for `j = 0, …, 6`. -/
def keccakRC (i : Nat) : Nat :=
  (List.range 7).foldl
    (fun acc j => acc + keccakRcBit (7 * i + j) * 2 ^ (2 ^ j - 1)) 0

/-- The ρ rotation offsets, indexed by `x + 5 * y`: starting from the lane
`(1, 0)`, step `t` assigns offset `(t + 1) * (t + 2) / 2 mod 64` and moves to
`(y, (2 * x + 3 * y) mod 5)`; the lane `(0, 0)` keeps offset `0`. -/
def keccakRotOffsets : List Nat :=
  (((List.range 24).foldl
    (fun st t =>
      let tbl := st.1
      let x := st.2.1
      let y := st.2.2
      (tbl.set (x + 5 * y) ((t + 1) * (t + 2) / 2 % 64),
        y, (2 * x + 3 * y) % 5))
    (List.replicate 25 0, 1, 0)) : List Nat × Nat × Nat).1

/-- One Keccak-f round (θ, ρ, π, χ, ι) on a 25-lane state. -/
def keccakRound (st : List Nat) (rc : Nat) : List Nat :=
  let lane := fun (x y : Nat) => st.getD (x + 5 * y) 0
  let c := fun (x : Nat) =>
    lane x 0 ^^^ lane x 1 ^^^ lane x 2 ^^^ lane x 3 ^^^ lane x 4
  let d := fun (x : Nat) => c ((x + 4) % 5) ^^^ rotl64 (c ((x + 1) % 5)) 1
  let a := fun (x y : Nat) => lane x y ^^^ d x
  let b := fun (x y : Nat) =>
    rotl64 (a ((x + 3 * y) % 5) x) (keccakRotOffsets.getD ((x + 3 * y) % 5 + 5 * x) 0)
  (List.range 25).map fun i =>
    let x := i % 5
    let y := i / 5
    let chi := b x y ^^^ ((2 ^ 64 - 1) ^^^ b ((x + 1) % 5) y) &&& b ((x + 2) % 5) y
    if i = 0 then chi ^^^ rc else chi

/-- The Keccak-f[1600] permutation: 24 rounds with their round constants. -/
def keccakF (st : List Nat) : List Nat :=
  (List.range 24).foldl (fun acc i => keccakRound acc (keccakRC i)) st

/-- Keccak pad10*1 at rate 136 bytes (the Ethereum/legacy 0x01 domain). -/
def keccakPad (msg : List Nat) : List Nat :=
  let padlen := 136 - msg.length % 136
  if padlen = 1 then msg ++ [0x81]
  else msg ++ [0x01] ++ List.replicate (padlen - 2) 0 ++ [0x80]

/-- Little-endian bytes to a 64-bit lane. -/
def bytesToLane (bytes : List Nat) : Nat :=
  bytes.foldr (fun byte acc => acc * 256 + byte) 0

/-- XOR one 136-byte block into the first 17 lanes, then permute. -/
def keccakAbsorbBlock (st block : List Nat) : List Nat :=
  keccakF ((List.range 25).map fun i =>
    if i < 17 then st.getD i 0 ^^^ bytesToLane ((block.drop (8 * i)).take 8)
    else st.getD i 0)

/-- Split a byte list into 136-byte blocks (structural recursion on a fuel
bound so that the definition reduces inside the kernel). -/
def keccakBlocksAux : Nat → List Nat → List (List Nat)
  | 0, _ => []
  | _, [] => []
  | fuel + 1, byte :: rest =>
    (byte :: rest).take 136 :: keccakBlocksAux fuel ((byte :: rest).drop 136)

/-- Split a byte list into 136-byte blocks. -/
def keccakBlocks (l : List Nat) : List (List Nat) :=
  keccakBlocksAux l.length l

/-- Keccak-256 of a byte list: absorb the padded message, squeeze the first
four lanes as 32 little-endian bytes. -/
def keccak256 (msg : List Nat) : List Nat :=
  let st := (keccakBlocks (keccakPad msg)).foldl keccakAbsorbBlock
    (List.replicate 25 0)
  ((List.range 4).map fun i =>
    (List.range 8).map fun j => (st.getD i 0 >>> (8 * j)) % 2 ^ 8).flatten

/-- The zero hash `H256::default()`, as 32 zero bytes. -/
def h256Default : List Nat := List.replicate 32 0

/-- `code_hash` (neon/account_storage.rs, lines 243-248) through
`ethereum_contract_map_or` (lines 189-210): hydrate the address, then — only
when the hydrated entry exists **and** carries a code account — apply
`keccak256` to the contract code; in every other case return the default
`H256::default()`. -/
def code_hash (env : HydrationEnv) (address : H160) (s : EmulatorState) :
    List Nat :=
  let s := (create_acc_if_not_exists env address s).2
  match s.lookup address with
  | some solana =>
    match solana.code_account with
    | some _ => keccak256 (env.ethereumContractCode solana.account)
    | none => h256Default
  | none => h256Default

/-! ## Helper lemmas about the replay loop -/

/-- On an instruction list with no failing instruction, the replay loop
completes and leaves the last produced trace in the accumulator. -/
theorem replayLoop_all_ok {τ : Type} (instrs : List (HostInstr τ))
    (acc : Option τ) (h : ∀ i ∈ instrs, i.failing = false) :
    replayLoop acc instrs = .ok (instrs.foldl traceStep acc) := by
  induction instrs generalizing acc with
  | nil => rfl
  | cons i rest ih =>
    have hi : i.failing = false := h i (List.mem_cons_self i rest)
    have hrest : ∀ j ∈ rest, j.failing = false :=
      fun j hj => h j (List.mem_cons_of_mem i hj)
    cases i with
    | evmUnhandled => simpa [replayLoop, traceStep] using ih acc hrest
    | evmDecodeErr e => simp [HostInstr.failing] at hi
    | evmCall r =>
      cases r with
      | ok traced => simpa [replayLoop, traceStep] using ih (some traced) hrest
      | error e => simp [HostInstr.failing] at hi
    | other r =>
      cases r with
      | ok u => cases u; simpa [replayLoop, traceStep] using ih acc hrest
      | error e => simp [HostInstr.failing] at hi

/-- A failing non-EVM instruction aborts the replay loop with its
`InstructionError`, whatever trace has been accumulated before it. -/
theorem replayLoop_instruction_error {τ : Type} (before : List (HostInstr τ))
    (e : Nat) (after : List (HostInstr τ)) (acc : Option τ)
    (h : ∀ i ∈ before, i.failing = false) :
    replayLoop acc (before ++ .other (.error e) :: after) =
      .error (.instruction e) := by
  induction before generalizing acc with
  | nil => rfl
  | cons i rest ih =>
    have hi : i.failing = false := h i (List.mem_cons_self i rest)
    have hrest : ∀ j ∈ rest, j.failing = false :=
      fun j hj => h j (List.mem_cons_of_mem i hj)
    cases i with
    | evmUnhandled => simpa [replayLoop] using ih acc hrest
    | evmDecodeErr e' => simp [HostInstr.failing] at hi
    | evmCall r =>
      cases r with
      | ok traced => simpa [replayLoop] using ih (some traced) hrest
      | error e' => simp [HostInstr.failing] at hi
    | other r =>
      cases r with
      | ok u => cases u; simpa [replayLoop] using ih acc hrest
      | error e' => simp [HostInstr.failing] at hi

/-! ## Claim C1 -/

/-- C1, counterexample.  A host transaction whose first instruction is an
EVM-loader instruction producing a trace (`42`) and whose second is a
non-EVM instruction failing with an `InstructionError` (`7`): the claim says
`replay_transaction` still returns the trace `42`; the code propagates the
error instead, so the call does turn into an error and the trace is lost. -/
theorem C1_counterexample :
    replay_transaction
        [HostInstr.evmCall (.ok (42 : Nat)), .other (.error 7)] =
      .error (.instruction 7) ∧
    replay_transaction
        [HostInstr.evmCall (.ok (42 : Nat)), .other (.error 7)] ≠
      .ok (some 42) := by
  constructor
  · rfl
  · decide

/-- C1, amended: when a non-EVM host instruction fails with an
`InstructionError`, `replay_transaction` aborts with that error, discarding
any trace produced by an earlier EVM-loader instruction — the `?` on
`processed.process_instruction(i)` propagates the failure.  The
exited/suppression semantics the spec describes exist only in
`<ProcessedMessage as Iterator>::next`, which `replay_transaction` never
calls: there, a failing instruction marks the state `exited`, and an exited
state emits no further items. -/
theorem C1_amended :
    (∀ (before after : List (HostInstr Nat)) (e : Nat),
      (∀ i ∈ before, i.failing = false) →
      replay_transaction (before ++ .other (.error e) :: after) =
        .error (.instruction e)) ∧
    (∀ (s : PMState) (result : Except Nat Unit) (s' : PMState),
      pmNext s = (some result, s') → result.isOk = false →
      s'.exited = true) ∧
    (∀ s : PMState, s.exited = true → pmNext s = (none, s)) := by
  refine ⟨fun before after e h => replayLoop_instruction_error before e after none h,
    fun s result s' hnext herr => ?_, fun s hexit => ?_⟩
  · by_cases hex : s.exited
    · simp [pmNext, hex] at hnext
    · rcases hres : s.results[s.current_idx]? with _ | r
      · simp [pmNext, hex, hres] at hnext
      · simp only [pmNext, if_neg hex, List.get?_eq_getElem?, hres] at hnext
        injection hnext with hr hs
        injection hr with hr
        subst hs
        subst hr
        simp [herr]
  · simp [pmNext, hexit]

/-- C1, witness for the amended theorem at a concrete input: a trace-producing
EVM instruction followed by a failing host instruction aborts the replay, and
the iterator, run at a state holding one failing result, marks itself
exited and then emits nothing. -/
theorem C1_witness :
    replay_transaction
        [HostInstr.evmCall (.ok (42 : Nat)), .other (.error 7)] =
      .error (.instruction 7) ∧
    ({ results := [.error 7], current_idx := 1, exited := true } : PMState).exited = true ∧
    pmNext { results := [.error 7], current_idx := 1, exited := true } =
      (none, { results := [.error 7], current_idx := 1, exited := true }) := by
  refine ⟨?_, rfl, ?_⟩
  · exact C1_amended.1 [HostInstr.evmCall (.ok 42)] [] 7 (by decide)
  · exact C1_amended.2.2 _ rfl

/-! ## Claim C2 -/

/-- C2, counterexample.  Two EVM-loader instructions in one host transaction,
each producing a trace: the claim says the `TracedCall` of the first (`1`)
is returned, but the loop overwrites `traced_call` at every EVM instruction,
so the second (`2`) is returned. -/
theorem C2_counterexample :
    replay_transaction
        [HostInstr.evmCall (.ok (1 : Nat)), .evmCall (.ok 2)] =
      .ok (some 2) ∧
    firstTrace [HostInstr.evmCall (.ok (1 : Nat)), .evmCall (.ok 2)] = some 1 ∧
    replay_transaction
        [HostInstr.evmCall (.ok (1 : Nat)), .evmCall (.ok 2)] ≠
      .ok (firstTrace [HostInstr.evmCall (.ok (1 : Nat)), .evmCall (.ok 2)]) := by
  refine ⟨rfl, rfl, by decide⟩

/-- C2, amended: on a host transaction whose instructions all process without
error, `replay_transaction` returns the `TracedCall` produced by the **last**
EVM-loader instruction that produced one (each trace overwrites the previous
value of the `traced_call` local). -/
theorem C2_amended {τ : Type} (instrs : List (HostInstr τ))
    (h : ∀ i ∈ instrs, i.failing = false) :
    replay_transaction instrs = .ok (lastTrace instrs) :=
  replayLoop_all_ok instrs none h

/-- C2, witness: the amended theorem applied to the two-trace transaction of
the counterexample yields the last trace. -/
theorem C2_witness :
    replay_transaction
        [HostInstr.evmCall (.ok (1 : Nat)), .evmCall (.ok 2)] =
      .ok (lastTrace [HostInstr.evmCall (.ok (1 : Nat)), .evmCall (.ok 2)]) :=
  C2_amended [HostInstr.evmCall (.ok (1 : Nat)), .evmCall (.ok 2)] (by decide)

/-! ## Claim C10 -/

/-- C10: when the transaction hash is found in the store but the replayed
host transaction processes without error and contains no EVM-loader
instruction that produces a trace, the internal `Option<TxMeta<TracedCall>>`
is `None` and `command_replay_transaction` panics on the unconditional
`unwrap` instead of returning an error. -/
theorem C10_replay_unwrap_panics {τ : Type} (instrs : List (HostInstr τ))
    (hok : ∀ i ∈ instrs, i.failing = false)
    (hnotrace : lastTrace instrs = none) :
    command_replay_transaction (some instrs) =
      .panic "called Option::unwrap on a None value" := by
  have hloop : replay_transaction instrs = .ok (lastTrace instrs) :=
    replayLoop_all_ok instrs none hok
  simp [command_replay_transaction, hloop, hnotrace]

/-- C10, witness: a found transaction with a single successfully processed
non-EVM instruction makes `command_replay_transaction` panic. -/
theorem C10_witness :
    command_replay_transaction (some [(HostInstr.other (.ok ()) : HostInstr Nat)]) =
      .panic "called Option::unwrap on a None value" :=
  C10_replay_unwrap_panics [HostInstr.other (.ok ())] (by decide) rfl

/-! ## Claim C3 -/

/-- C3: an invocation of `command_trace_call` that returns a `TracedCall`
never carries `exit_reason = StepLimitReached` (the `unreachable!` arm never
yields a value), and when the interpreter performs the whole 100,000-step
budget without exiting (`execute_n_steps` returns `Ok(())`),
`command_trace_call` returns an error instead of a trace. -/
theorem C3_no_step_limit_at_boundary :
    (∀ (setup : Except Nat Unit) (steps : StepsOutcome) (tout : TracerOut)
        (usedGas diff : Nat) (tc : TracedCall),
      command_trace_call setup steps tout usedGas diff = .ok tc →
      tc.exit_reason ≠ .stepLimitReached) ∧
    (∀ (tout : TracerOut) (usedGas diff : Nat),
      command_trace_call (.ok ()) .ranOutOfSteps tout usedGas diff = .err 0) := by
  constructor
  · intro setup steps tout usedGas diff tc hok
    cases setup with
    | error e => simp [command_trace_call] at hok
    | ok u =>
      cases u
      cases steps with
      | ranOutOfSteps => simp [command_trace_call] at hok
      | exited result reason =>
        cases reason <;>
          simp only [command_trace_call] at hok <;>
          cases hok <;> simp [ExitReason.is_succeed]
  · intro tout usedGas diff
    rfl

/-- C3, witness: a concrete successful exit yields a `TracedCall` whose exit
reason is not `StepLimitReached`, and a concrete budget-exhausted run yields
the error. -/
theorem C3_witness :
    ({ vm_trace := none, state_diff := some 0, traces := [],
       full_trace_data := [], js_trace := none, result := [],
       used_gas := 0, exit_reason := .succeed 0 } : TracedCall).exit_reason ≠
      .stepLimitReached ∧
    command_trace_call (.ok ()) .ranOutOfSteps
        { vm_trace := none, traces := [], full_trace_data := [],
          js_trace := none, result := [] } 0 0 = .err 0 := by
  constructor
  · exact C3_no_step_limit_at_boundary.1 (.ok ()) (.exited [] (.succeed 0))
      { vm_trace := none, traces := [], full_trace_data := [],
        js_trace := none, result := [] } 0 0 _ rfl
  · exact C3_no_step_limit_at_boundary.2
      { vm_trace := none, traces := [], full_trace_data := [],
        js_trace := none, result := [] } 0 0

/-! ## Claim C6 -/

/-- C6, counterexample.  A completed trace whose interpreter-reported used
gas is `7`: the returned `TracedCall` carries `used_gas = 7`, not `7 + 1`;
the claimed plus-one adjustment does not happen in `command_trace_call`. -/
theorem C6_counterexample :
    command_trace_call (.ok ()) (.exited [] (.succeed 0))
        { vm_trace := none, traces := [], full_trace_data := [],
          js_trace := none, result := [] } 7 0 =
      .ok { vm_trace := none, state_diff := some 0, traces := [],
            full_trace_data := [], js_trace := none, result := [],
            used_gas := 7, exit_reason := .succeed 0 } ∧
    (7 : Nat) ≠ 7 + 1 := by
  exact ⟨rfl, by decide⟩

/-- C6, amended: the `used_gas` field of a returned `TracedCall` equals the
interpreter-reported used gas exactly (`executor.used_gas().as_u64()`, no
adjustment); the plus-one compensation for the upstream refund-accounting
off-by-one exists only in the CLI `emulate` command, whose reported value is
`gasometer.used_gas() + 1` (plus any positive refund). -/
theorem C6_amended :
    (∀ (setup : Except Nat Unit) (steps : StepsOutcome) (tout : TracerOut)
        (usedGas diff : Nat) (tc : TracedCall),
      command_trace_call setup steps tout usedGas diff = .ok tc →
      tc.used_gas = usedGas) ∧
    (∀ (used : Nat) (refunded : Int), refunded ≤ 0 →
      cliEmulateReportedGas used refunded = used + 1) := by
  constructor
  · intro setup steps tout usedGas diff tc hok
    cases setup with
    | error e => simp [command_trace_call] at hok
    | ok u =>
      cases u
      cases steps with
      | ranOutOfSteps => simp [command_trace_call] at hok
      | exited result reason =>
        cases reason <;>
          simp only [command_trace_call] at hok <;>
          cases hok <;> simp [ExitReason.is_succeed]
  · intro used refunded hneg
    simp [cliEmulateReportedGas, not_lt.mpr hneg]

/-- C6, witness: the amended theorem at a concrete run with used gas `7` and
no refund. -/
theorem C6_witness :
    ({ vm_trace := none, state_diff := some 0, traces := [],
       full_trace_data := [], js_trace := none, result := [],
       used_gas := 7, exit_reason := .succeed 0 } : TracedCall).used_gas = 7 ∧
    cliEmulateReportedGas 7 0 = 7 + 1 := by
  constructor
  · exact C6_amended.1 (.ok ()) (.exited [] (.succeed 0))
      { vm_trace := none, traces := [], full_trace_data := [],
        js_trace := none, result := [] } 7 0 _ rfl
  · exact C6_amended.2 7 0 (by decide)

/-! ## Claim C7 -/

/-- C7, counterexample.  The deserializer of the Geth-facing `BlockNumber`
rejects both the string `"latest"` and the decimal string `"17"` with the
missing-prefix error — the claim's decimal and `latest` shapes never
succeed — while a `0x`-prefixed hexadecimal string succeeds. -/
theorem C7_counterexample :
    blockNumberDeserialize "latest".toList =
      .error "Invalid block number: missing 0x prefix" ∧
    blockNumberDeserialize "17".toList =
      .error "Invalid block number: missing 0x prefix" ∧
    blockNumberDeserialize "0x11".toList = .ok 17 := by
  refine ⟨?_, ?_, ?_⟩ <;> decide

/-- C7, amended: `BlockNumber` deserialization accepts only `0x`-prefixed
hexadecimal u64 strings; every string without the `0x` prefix — including
decimal numbers and `"latest"` — is rejected with the missing-prefix
error. -/
theorem C7_amended :
    (∀ value : List Char, value.take 2 ≠ ['0', 'x'] →
      blockNumberDeserialize value =
        .error "Invalid block number: missing 0x prefix") ∧
    blockNumberDeserialize "0x11".toList = .ok 17 := by
  constructor
  · intro value hpre
    simp [blockNumberDeserialize, hpre]
  · decide

/-- C7, witness: the amended theorem applied to `"latest"`. -/
theorem C7_witness :
    blockNumberDeserialize "latest".toList =
      .error "Invalid block number: missing 0x prefix" :=
  C7_amended.1 "latest".toList (by decide)

/-! ## Helper lemmas for the balance-delta collation -/

/-- The value the `HashMap` entry API hands to the update closure: the stored
pair, or `(Sign::Pos, U256::zero())` when the address is absent. -/
def lookupOr : List (H160 × (Sign × Nat)) → H160 → Sign × Nat
  | [], _ => (.pos, 0)
  | (a, x) :: rest, addr => if addr = a then x else lookupOr rest addr

/-- `apply_balance_update` is exact signed arithmetic: the denoted integer
moves by `+value` for `Sign::Pos` and by `-value` for `Sign::Neg` (the
guarded subtraction never truncates). -/
theorem signedVal_apply_balance_update (current : Sign × Nat) (sign : Sign)
    (value : Nat) :
    signedVal (apply_balance_update current sign value) =
      signedVal current + (match sign with
        | .pos => (value : Int)
        | .neg => -(value : Int)) := by
  obtain ⟨cs, c⟩ := current
  cases cs with
  | pos =>
    cases sign with
    | pos => simp only [apply_balance_update, signedVal]; omega
    | neg =>
      by_cases h : c < value
      · simp [apply_balance_update, h, Sign.swap, signedVal]; omega
      · simp [apply_balance_update, h, Sign.swap, signedVal]; omega
  | neg =>
    cases sign with
    | pos =>
      by_cases h : c < value
      · simp [apply_balance_update, h, Sign.swap, signedVal]; omega
      · simp [apply_balance_update, h, Sign.swap, signedVal]; omega
    | neg => simp only [apply_balance_update, signedVal]; omega

theorem sumBalances_upsert (m : List (H160 × (Sign × Nat))) (addr : H160)
    (f : Sign × Nat → Sign × Nat) :
    sumBalances (upsertBalance m addr f) =
      sumBalances m - signedVal (lookupOr m addr) +
        signedVal (f (lookupOr m addr)) := by
  induction m with
  | nil => simp [upsertBalance, sumBalances, lookupOr, signedVal]
  | cons e rest ih =>
    obtain ⟨a, x⟩ := e
    by_cases h : addr = a
    · simp [upsertBalance, lookupOr, h, sumBalances]
      ring
    · simp only [upsertBalance, lookupOr, if_neg h, sumBalances, List.map_cons,
        List.sum_cons] at *
      omega

/-- Processing one transfer leaves the net signed sum unchanged: the source
entry moves by `-value` and the target entry by `+value`. -/
theorem sumBalances_transfer (m : List (H160 × (Sign × Nat))) (t : Transfer) :
    sumBalances
      (upsertBalance
        (upsertBalance m t.source
          (fun cur => apply_balance_update cur .neg t.value))
        t.target (fun cur => apply_balance_update cur .pos t.value)) =
      sumBalances m := by
  rw [sumBalances_upsert, sumBalances_upsert]
  simp only [signedVal_apply_balance_update]
  omega

/-! ## Claim C8 -/

/-- C8: for every finite list of transfers, the per-address signed balance
deltas collated by `collect_balance_changes` sum to zero — each transfer
contributes `-value` at its source and `+value` at its target, and
`apply_balance_update` combines same-sign updates by addition and
opposite-sign updates by subtraction, swapping the stored sign when the
subtrahend exceeds the accumulated magnitude. -/
theorem C8_balance_deltas_sum_zero (transfers : List Transfer) :
    sumBalances (collect_balance_changes transfers) = 0 := by
  suffices h : ∀ m : List (H160 × (Sign × Nat)),
      sumBalances (transfers.foldl
        (fun m transfer =>
          upsertBalance
            (upsertBalance m transfer.source
              (fun cur => apply_balance_update cur .neg transfer.value))
            transfer.target
            (fun cur => apply_balance_update cur .pos transfer.value)) m) =
        sumBalances m by
    simpa [sumBalances, collect_balance_changes] using h []
  induction transfers with
  | nil => intro m; rfl
  | cons t rest ih =>
    intro m
    simpa [List.foldl_cons, sumBalances_transfer m t] using
      (ih (upsertBalance
        (upsertBalance m t.source
          (fun cur => apply_balance_update cur .neg t.value))
        t.target (fun cur => apply_balance_update cur .pos t.value)))

/-! ## Claim C9 -/

/-- C9: the balance application of `prepare_state_diff` is not total — in
`modify`, a collated `(Sign::Neg, value)` delta is applied by the unchecked
`U256` subtraction `old_balance - value`, which panics (modelled as `none`)
exactly when the debit strictly exceeds the old stored balance; under the
precondition that every net-debited address holds at least the debited
amount, the computation always produces a balance (the panic branch is
unreachable). -/
theorem C9_modify_balance_partiality :
    (∀ old_balance value : Nat,
      modifyBalance old_balance (some (.neg, value)) = none ↔
        old_balance < value) ∧
    (∀ (old_balance : Nat) (balance : Option (Sign × Nat)),
      (∀ value : Nat, balance = some (.neg, value) → value ≤ old_balance) →
      (modifyBalance old_balance balance).isSome = true) := by
  constructor
  · intro old_balance value
    constructor
    · intro h
      by_contra hge
      simp [modifyBalance, hge] at h
    · intro h
      simp [modifyBalance, h]
  · intro old_balance balance hpre
    match balance with
    | none => simp [modifyBalance]
    | some (.pos, value) => simp [modifyBalance]
    | some (.neg, value) =>
      have hle : value ≤ old_balance := hpre value rfl
      simp [modifyBalance, Nat.not_lt.mpr hle]

/-- C9, witness: the subtraction panics at `old_balance = 0`, `value = 1`,
and is defined at `old_balance = 5`, `value = 3`. -/
theorem C9_witness :
    modifyBalance 0 (some (.neg, 1)) = none ∧
    (modifyBalance 5 (some (.neg, 3))).isSome = true := by
  constructor
  · exact (C9_modify_balance_partiality.1 0 1).mpr (by decide)
  · exact C9_modify_balance_partiality.2 5 (some (.neg, 3))
      (by intro value h; injection h with h'; injection h' with h1 h2; omega)

/-! ## Helper lemmas about hydration -/

/-- A provider that knows no account at all: every `get_account_at_slot`
answers `Ok(None)`, so every hydration fails on the missing host account. -/
def envMissing : HydrationEnv :=
  { get_account_at_slot := fun _ => .ok none,
    find_program_address := fun address => address,
    ethereumAccountCodeKey := fun _ => .error (),
    ethereumContractCode := fun _ => [] }

theorem filter_append_self_ne_nil (l : List (H160 × SolanaAccount))
    (addr : H160) (x : SolanaAccount) :
    (((l ++ [(addr, x)]).filter (fun e => e.1 = addr)).length ≠ 0) := by
  simp [List.filter_append]

/-- An address already present in `ethereum_accounts` is answered from the
map: no fetch, no state change. -/
theorem create_acc_hit (env : HydrationEnv) (addr : H160) (s : EmulatorState)
    (h : (s.ethereum_accounts.filter (fun e => e.1 = addr)).length ≠ 0) :
    create_acc_if_not_exists env addr s = (true, s) := by
  simp [create_acc_if_not_exists, h]

/-- After a hydration that returned `true`, the address is present in
`ethereum_accounts`. -/
theorem create_acc_true_mem (env : HydrationEnv) (addr : H160)
    (s : EmulatorState) (h : (create_acc_if_not_exists env addr s).1 = true) :
    (((create_acc_if_not_exists env addr s).2).ethereum_accounts.filter
      (fun e => e.1 = addr)).length ≠ 0 := by
  by_cases hc : (s.ethereum_accounts.filter (fun e => e.1 = addr)).length ≠ 0
  · rw [create_acc_hit env addr s hc]
    exact hc
  · rcases hget : env.get_account_at_slot (env.find_program_address addr) with e | osol
    · simp [create_acc_if_not_exists, hc, hget] at h
    · rcases osol with _ | solana
      · simp [create_acc_if_not_exists, hc, hget] at h
      · rcases hparse : env.ethereumAccountCodeKey solana with e | ck
        · simp [create_acc_if_not_exists, hc, hget, hparse] at h
        · rcases ck with _ | code_key
          · simp [create_acc_if_not_exists, hc, hget, hparse]
          · rcases hcode : env.get_account_at_slot code_key with e | oc
            · simp [create_acc_if_not_exists, hc, hget, hparse, hcode] at h
            · rcases oc with _ | code_acc
              · simp [create_acc_if_not_exists, hc, hget, hparse, hcode] at h
              · simp [create_acc_if_not_exists, hc, hget, hparse, hcode]

/-- A hydration that returned `false` has inserted nothing into
`ethereum_accounts` (only the fetch log has grown): nothing is memoized on
failure. -/
theorem create_acc_false_no_insert (env : HydrationEnv) (addr : H160)
    (s : EmulatorState) (h : (create_acc_if_not_exists env addr s).1 = false) :
    ((create_acc_if_not_exists env addr s).2).ethereum_accounts =
      s.ethereum_accounts := by
  by_cases hc : (s.ethereum_accounts.filter (fun e => e.1 = addr)).length ≠ 0
  · rw [create_acc_hit env addr s hc]
  · rcases hget : env.get_account_at_slot (env.find_program_address addr) with e | osol
    · simp [create_acc_if_not_exists, hc, hget]
    · rcases osol with _ | solana
      · simp [create_acc_if_not_exists, hc, hget]
      · rcases hparse : env.ethereumAccountCodeKey solana with e | ck
        · simp [create_acc_if_not_exists, hc, hget, hparse]
        · rcases ck with _ | code_key
          · simp [create_acc_if_not_exists, hc, hget, hparse] at h
          · rcases hcode : env.get_account_at_slot code_key with e | oc
            · simp [create_acc_if_not_exists, hc, hget, hparse, hcode]
            · rcases oc with _ | code_acc
              · simp [create_acc_if_not_exists, hc, hget, hparse, hcode]
              · simp [create_acc_if_not_exists, hc, hget, hparse, hcode] at h

/-! ## Claim C4 -/

/-- C4, counterexample.  An EVM address whose derived host account is missing
from the provider: the first query fetches and memoizes nothing, so a second
query for the same address issues a second host-account fetch — more than
the single fetch per address the claim permits. -/
theorem C4_counterexample :
    (create_acc_if_not_exists envMissing 0
        (create_acc_if_not_exists envMissing 0 .initial).2).2.fetchesFor
      envMissing 0 = 2 ∧
    ¬ (create_acc_if_not_exists envMissing 0
        (create_acc_if_not_exists envMissing 0 .initial).2).2.fetchesFor
      envMissing 0 ≤ 1 := by
  constructor <;> decide

/-- C4, amended: hydration is memoized only on success.  After
`create_acc_if_not_exists` returns `true`, a repeated call for the same
address is answered from the map with no further provider fetch and no state
change; after it returns `false` (missing host account, provider error,
wrong owner, or missing code account), nothing has been inserted into the
account map, so each later query hydrates — and fetches — again. -/
theorem C4_amended :
    (∀ (env : HydrationEnv) (addr : H160) (s : EmulatorState),
      (create_acc_if_not_exists env addr s).1 = true →
      create_acc_if_not_exists env addr (create_acc_if_not_exists env addr s).2 =
        (true, (create_acc_if_not_exists env addr s).2)) ∧
    (∀ (env : HydrationEnv) (addr : H160) (s : EmulatorState),
      (create_acc_if_not_exists env addr s).1 = false →
      ((create_acc_if_not_exists env addr s).2).ethereum_accounts =
        s.ethereum_accounts) := by
  constructor
  · intro env addr s h
    exact create_acc_hit env addr _ (create_acc_true_mem env addr s h)
  · intro env addr s h
    exact create_acc_false_no_insert env addr s h

/-- C4, witness for the amended theorem: a provider holding a parseable
user account hydrates once and answers the second query from the map, while
the no-account provider memoizes nothing. -/
theorem C4_witness :
    create_acc_if_not_exists
        { get_account_at_slot := fun _ =>
            .ok (some { lamports := 1, data := [], owner := 3,
                        executable := false, rent_epoch := 0 }),
          find_program_address := fun address => address,
          ethereumAccountCodeKey := fun _ => .ok none,
          ethereumContractCode := fun _ => [] } 0
        (create_acc_if_not_exists
          { get_account_at_slot := fun _ =>
              .ok (some { lamports := 1, data := [], owner := 3,
                          executable := false, rent_epoch := 0 }),
            find_program_address := fun address => address,
            ethereumAccountCodeKey := fun _ => .ok none,
            ethereumContractCode := fun _ => [] } 0 .initial).2 =
      (true,
        (create_acc_if_not_exists
          { get_account_at_slot := fun _ =>
              .ok (some { lamports := 1, data := [], owner := 3,
                          executable := false, rent_epoch := 0 }),
            find_program_address := fun address => address,
            ethereumAccountCodeKey := fun _ => .ok none,
            ethereumContractCode := fun _ => [] } 0 .initial).2) ∧
    ((create_acc_if_not_exists envMissing 0 .initial).2).ethereum_accounts =
      EmulatorState.initial.ethereum_accounts := by
  constructor
  · exact C4_amended.1 _ 0 .initial rfl
  · exact C4_amended.2 envMissing 0 .initial rfl

/-! ## Claim C5 -/

set_option maxRecDepth 100000 in
/-- C5, counterexample.  An address whose hydration yields no contract code
(here: the host account is missing entirely): `code_hash` returns
`H256::default()` — thirty-two zero bytes — which is **not** the Keccak-256
of the empty byte-sequence
(`c5d2460186f7233c927e7db2dcc703c0e500b653ca82273b7bfad8045d85a470`). -/
theorem C5_counterexample :
    code_hash envMissing 0 .initial = h256Default ∧
    keccak256 [] ≠ h256Default := by
  constructor
  · rfl
  · decide

/-- C5, amended: for every address whose hydration yields no contract code
(missing account, wrong owner, or a user account without a code account),
`code_hash` returns the all-zero `H256::default()`, not the keccak of the
empty byte-sequence. -/
theorem C5_amended (env : HydrationEnv) (addr : H160) (s : EmulatorState)
    (h : ∀ sa : SolanaAccount,
      ((create_acc_if_not_exists env addr s).2).lookup addr = some sa →
      sa.code_account = none) :
    code_hash env addr s = h256Default := by
  unfold code_hash
  rcases hl : ((create_acc_if_not_exists env addr s).2).lookup addr with _ | sa
  · simp [hl]
  · simp [hl, h sa hl]

/-- C5, witness: the amended theorem at the missing-account provider. -/
theorem C5_witness : code_hash envMissing 0 .initial = h256Default := by
  refine C5_amended envMissing 0 .initial ?_
  intro sa hsa
  rw [show ((create_acc_if_not_exists envMissing 0 .initial).2).lookup 0 =
    none from rfl] at hsa
  cases hsa

end NeonEvm
